import Mathlib

/-!
Verification of the loco-mujoco tutorial-script repository.

The repository is a collection of Python tutorial scripts around an external
simulation library.  We give a shallow embedding of the script-level logic the
claims are about:

* the duplicated helper `get_action_size` (lesson_1_5 / lesson_1_6 / lesson_1_8);
* the defensive `step()`-result unpacking patterns (lesson_1_8 and lesson_1_1);
* the truncated error-message printing of the archive recorders;
* the fallback control flow of `g1_01_basic_datasets.main`;
* the demonstration loop of `lesson_1_3_basic_datasets`;
* `set_background_color` of lesson_1_5;
* the `InteractiveController` clamping logic of lesson_1_5;
* the `SlowMotionViewer` speed table of lesson_1_9;
* per-file static facts (main guard, argv use, y/N prompts) for the whole tree.

Python floats are modelled as rationals: every operation the claims touch is a
comparison, `min`/`max` clamp, or exact table lookup, whose outcome agrees with
IEEE semantics on the literals involved.  Exceptions are modelled with
`Except`/`Option`; external library calls are oracles supplied as parameters.
-/

namespace LocoTutorials

/-! Section: Python-level values

A small universe of Python values, enough to state the unpacking claims:
opaque objects (observations, infos), numbers, booleans, strings, and the
empty dict literal `{}` used as a fallback `info`. -/

inductive PyVal : Type where
  | bool (b : Bool)
  | int (n : Int)
  | str (s : String)
  | emptyDict
  | obj (tag : String)
deriving DecidableEq, Repr

/-! Section: `get_action_size` (lesson_1_5_interactive_control.py lines 39-46,
lesson_1_6_motion_analysis.py lines 27-34, lesson_1_8_test_utilities.py
lines 24-31 -- the three copies are textually identical)

    def get_action_size(env):
        if hasattr(env, 'action_size'):
            return env.action_size
        elif hasattr(env, 'action_space') and hasattr(env.action_space, 'shape'):
            return env.action_space.shape[0]
        else:
            return 23  # Default for G1 robot

We model an environment object by which of the two attributes it exposes:
`action_size = some n` means the attribute exists with value `n`;
`action_space_shape = some l` means `env.action_space` exists and has a
`shape` attribute equal to the tuple `l`.  `shape[0]` on an empty tuple is a
Python IndexError, modelled as `none`. -/

structure PyEnv : Type where
  action_size : Option Int
  action_space_shape : Option (List Int)
deriving DecidableEq, Repr

def get_action_size (env : PyEnv) : Option Int :=
  match env.action_size with
  | some n => some n
  | none =>
    match env.action_space_shape with
    | some shape => shape.head?
    | none => some 23

/-! Section: Step-result unpacking

lesson_1_8_test_utilities.py, `test_environment_stepping` (lines 270-280):

    step_result = env.step(action)
    if len(step_result) == 5:
        next_state, reward, terminated, truncated, info = step_result
    elif len(step_result) == 4:
        next_state, reward, terminated, info = step_result
        truncated = False
    else:
        next_state, reward, terminated = step_result[:3]
        truncated = False
        info = {}

lesson_1_1_quick_test.py, `test_basic_movement` (lines 107-112):

    result = env.step(action)
    if len(result) == 5:
        obs, reward, done, truncated, info = result
    else:
        obs, reward, done, info = result
        truncated = False

A failed tuple destructuring (wrong arity) is a Python ValueError, modelled
as `none`. -/

structure Unpacked : Type where
  state : PyVal
  reward : PyVal
  terminated : PyVal
  truncated : PyVal
  info : PyVal
deriving DecidableEq, Repr

def unpackStep_lesson18 (result : List PyVal) : Option Unpacked :=
  if result.length = 5 then
    match result with
    | [s, r, t, tr, i] => some ⟨s, r, t, tr, i⟩
    | _ => none
  else if result.length = 4 then
    match result with
    | [s, r, t, i] => some ⟨s, r, t, PyVal.bool false, i⟩
    | _ => none
  else
    match result with
    | s :: r :: t :: _ => some ⟨s, r, t, PyVal.bool false, PyVal.emptyDict⟩
    | _ => none

def unpackStep_lesson11 (result : List PyVal) : Option Unpacked :=
  if result.length = 5 then
    match result with
    | [s, r, t, tr, i] => some ⟨s, r, t, tr, i⟩
    | _ => none
  else
    match result with
    | [s, r, t, i] => some ⟨s, r, t, PyVal.bool false, i⟩
    | _ => none

/-! Section: Python string operations

`pyIn needle hay` is the Python expression `needle in hay` on strings;
`pySlice s n` is the Python slice `s[:n]` (by code points, like Python). -/

def containsSub [BEq α] : List α → List α → Bool
  | [], needle => needle.isEmpty
  | a :: tl, needle => needle.isPrefixOf (a :: tl) || containsSub tl needle

def pyIn (needle hay : String) : Bool :=
  containsSub hay.data needle.data

def pySlice (s : String) (n : Nat) : String :=
  String.mk (s.data.take n)

/-! Section: truncated error printing

g1_extended_dataset_recorder.py, `test_and_record_dataset` (lines 78-84):

    except Exception as e:
        error_msg = str(e)
        if "404" in error_msg or "Entry Not Found" in error_msg:
            print(" ❌ Not available")
        else:
            print(f" ❌ Error: ...")     -- the text is error_msg[:50] plus "..."
        return False, None

g1_dance_recorder.py, `record_dance_dataset` (line 70):

    except Exception as e:
        print(f"   ❌ Recording failed: ...")   -- str(e)[:100] plus "..."

Each model function returns the exact line printed given `msg = str(e)`. -/

def extendedRecorderErrorLine (msg : String) : String :=
  if pyIn "404" msg || pyIn "Entry Not Found" msg then
    " ❌ Not available"
  else
    " ❌ Error: " ++ pySlice msg 50 ++ "..."

def danceRecorderErrorLine (msg : String) : String :=
  "   ❌ Recording failed: " ++ pySlice msg 100 ++ "..."

/-! Section: background colors (lesson_1_5_interactive_control.py lines 24-36)

    def set_background_color(color_name="black"):
        colors = {
            "black": "0 0 0",
            "dark_blue": "0.1 0.1 0.2",
            "dark_gray": "0.2 0.2 0.2",
            "white": "1 1 1",
            "default": "0.2 0.3 0.4"  # MuJoCo default-ish
        }
        bg_color = colors.get(color_name, colors["black"])
        os.environ['MUJOCO_GL_BACKGROUND'] = bg_color

The function returns the string written to `MUJOCO_GL_BACKGROUND`; the
`colors.get` default is `colors["black"]`, i.e. the literal "0 0 0". -/

def backgroundColors : List (String × String) :=
  [("black", "0 0 0"),
   ("dark_blue", "0.1 0.1 0.2"),
   ("dark_gray", "0.2 0.2 0.2"),
   ("white", "1 1 1"),
   ("default", "0.2 0.3 0.4")]

def set_background_color (color_name : String) : String :=
  match backgroundColors.lookup color_name with
  | some c => c
  | none => "0 0 0"

/-- The renderer-side tokenisation of an "R G B" string: split on spaces
(Python `s.split(" ")` on these strings). -/
def splitTokens (s : String) : List String :=
  (s.data.splitOn (Char.ofNat 32)).map String.mk

/-! A little decimal parser giving the renderer-side reading of one token of
an "R G B" string as a rational (e.g. "0.1" becomes 1/10).  Tokens are
unsigned decimal numerals with at most one point, which covers every token
this repository writes. -/

def decDigit? (c : Char) : Option Nat :=
  if c.isDigit then some (c.toNat - 48) else none

def decNatAux : List Char → Nat → Option Nat
  | [], acc => some acc
  | c :: cs, acc =>
    match decDigit? c with
    | some d => decNatAux cs (acc * 10 + d)
    | none => none

def decNat? (cs : List Char) : Option Nat :=
  if cs.isEmpty then none else decNatAux cs 0

def parseDecimal (s : String) : Option (Nat × Nat × Nat) :=
  match s.data.splitOn (Char.ofNat 46) with
  | [w] => (decNat? w).map (fun wn => (wn, 0, 0))
  | [w, f] =>
    match decNat? w, decNat? f with
    | some wn, some fn => some (wn, fn, f.length)
    | _, _ => none
  | _ => none

/-- The rational a parsed token (whole part, fractional digits value,
fractional digit count) denotes. -/
def decimalVal (p : Nat × Nat × Nat) : ℚ :=
  (p.1 : ℚ) + (p.2.1 : ℚ) / ((10 : ℚ) ^ p.2.2)

def parseDecimalQ (s : String) : Option ℚ :=
  (parseDecimal s).map decimalVal

/-! Section: SlowMotionViewer (lesson_1_9_slow_motion_viewer.py lines 95-125)

    def __init__(self, env, base_delay=0.033):
        self.base_delay = base_delay
        self.speed_multipliers = {
            'ultra_slow': 10.0, 'very_slow': 5.0, 'slow': 2.0,
            'normal': 1.0, 'fast': 0.5,
        }
        self.current_speed = 'normal'

    def set_speed(self, speed_name):
        if speed_name in self.speed_multipliers:
            self.current_speed = speed_name
            print(...)
        else:
            print(...)

    def get_current_delay(self):
        return self.base_delay * self.speed_multipliers[self.current_speed]

A missing key in `get_current_delay` would be a Python KeyError; we use
`getD 0` there, which is only reachable when `current_speed` is not a valid
key (never the case along the modelled transitions). -/

def speed_multipliers : List (String × ℚ) :=
  [("ultra_slow", 10), ("very_slow", 5), ("slow", 2), ("normal", 1), ("fast", 0.5)]

structure SlowMotionViewer : Type where
  base_delay : ℚ
  current_speed : String
deriving DecidableEq, Repr

def mkSlowMotionViewer : SlowMotionViewer :=
  ⟨0.033, "normal"⟩

def set_speed (v : SlowMotionViewer) (speed_name : String) : SlowMotionViewer :=
  if (speed_multipliers.lookup speed_name).isSome then
    { v with current_speed := speed_name }
  else
    v

def get_current_delay (v : SlowMotionViewer) : ℚ :=
  v.base_delay * (speed_multipliers.lookup v.current_speed).getD 0

/-! Section: InteractiveController (lesson_1_5_interactive_control.py
lines 52-57 and 84-145)

    def __init__(self, env):
        self.action_size = get_action_size(env)
        self.current_action = np.zeros(self.action_size)
        self.control_speed = 0.1

`update_action` clamps each joint update into [-1, 1] with min/max and each
speed update into [0.01, 0.5]; keys 'r'/'f' ('t'/'g') are guarded by
`len(self.current_action) > 3` (`> 4`); key '0' resets to zeros; unknown
keys leave the state unchanged.  Reading `current_action[i]` is modelled by
`getD i 0`; an in-range `List.set` is exactly the Python item assignment
(out of range, Python would raise IndexError while `set` is a no-op; both
leave the stored vector unchanged). -/

structure InteractiveController : Type where
  current_action : List ℚ
  control_speed : ℚ
deriving DecidableEq, Repr

def mkController (action_size : Nat) : InteractiveController :=
  ⟨List.replicate action_size 0, 0.1⟩

def bumpUp (xs : List ℚ) (i : Nat) (speed : ℚ) : List ℚ :=
  xs.set i (min 1 (xs.getD i 0 + speed))

def bumpDown (xs : List ℚ) (i : Nat) (speed : ℚ) : List ℚ :=
  xs.set i (max (-1) (xs.getD i 0 - speed))

def update_action (c : InteractiveController) (key : Char) : InteractiveController :=
  if key = 'w' then { c with current_action := bumpUp c.current_action 0 c.control_speed }
  else if key = 's' then { c with current_action := bumpDown c.current_action 0 c.control_speed }
  else if key = 'a' then { c with current_action := bumpUp c.current_action 1 c.control_speed }
  else if key = 'd' then { c with current_action := bumpDown c.current_action 1 c.control_speed }
  else if key = 'q' then { c with current_action := bumpUp c.current_action 2 c.control_speed }
  else if key = 'e' then { c with current_action := bumpDown c.current_action 2 c.control_speed }
  else if key = 'r' then
    if 3 < c.current_action.length then
      { c with current_action := bumpUp c.current_action 3 c.control_speed }
    else c
  else if key = 'f' then
    if 3 < c.current_action.length then
      { c with current_action := bumpDown c.current_action 3 c.control_speed }
    else c
  else if key = 't' then
    if 4 < c.current_action.length then
      { c with current_action := bumpUp c.current_action 4 c.control_speed }
    else c
  else if key = 'g' then
    if 4 < c.current_action.length then
      { c with current_action := bumpDown c.current_action 4 c.control_speed }
    else c
  else if key = '+' then { c with control_speed := min 0.5 (c.control_speed + 0.02) }
  else if key = '-' then { c with control_speed := max 0.01 (c.control_speed - 0.02) }
  else if key = '0' then
    { c with current_action := List.replicate c.current_action.length 0 }
  else c

/-! Section: external-library oracle

The scripts only sequence calls into the external loco_mujoco library; each
call can raise.  An `ExtApi` is an oracle saying, for each call the modelled
scripts make, whether it succeeds or raises (with the exception text).
`makeEnv names substeps` is `ImitationFactory.make("UnitreeG1",
default_dataset_conf=DefaultDatasetConf(names), n_substeps=substeps)`
(`none` when `n_substeps` is not passed); `playTrajectory names eps steps` is
`env.play_trajectory(n_episodes=eps, n_steps_per_episode=steps, render=True)`
on the environment made from `names`; `createDataset` is
`env.create_dataset()`. -/

structure ExtApi : Type where
  makeEnv : List String → Option Nat → Except String Unit
  createDataset : Except String Unit
  playTrajectory : List String → Nat → Nat → Except String Unit

/-! Section: g1_01_basic_datasets.py `main` (lines 10-102)

The try-block creates the two-dataset environment, creates its dataset, then
for each of "walk" and "squat" creates a single-dataset environment and
plays it.  The except-block prints the error and retries with
`DefaultDatasetConf(["walk"])` (no n_substeps) and
`play_trajectory(n_episodes=2, n_steps_per_episode=500, render=True)`; a
failure there is caught by the inner except and only printed. -/

def basicDatasetsBody (api : ExtApi) : Except String Unit := do
  api.makeEnv ["walk", "squat"] (some 20)
  api.createDataset
  api.makeEnv ["walk"] (some 20)
  api.playTrajectory ["walk"] 3 1000
  api.makeEnv ["squat"] (some 20)
  api.playTrajectory ["squat"] 3 1000

def basicDatasetsFallback (api : ExtApi) : Except String Unit := do
  api.makeEnv ["walk"] none
  api.playTrajectory ["walk"] 2 500

inductive BasicOutcome : Type where
  | success
  | fallbackSuccess (e : String)
  | fallbackFailed (e e2 : String)
deriving DecidableEq, Repr

def basicDatasetsMain (api : ExtApi) : Except String BasicOutcome :=
  match basicDatasetsBody api with
  | Except.ok _ => Except.ok BasicOutcome.success
  | Except.error e =>
    match basicDatasetsFallback api with
    | Except.ok _ => Except.ok (BasicOutcome.fallbackSuccess e)
    | Except.error e2 => Except.ok (BasicOutcome.fallbackFailed e e2)

/-! Section: lesson_1_3_basic_datasets.py (lines 82-120 and 200-241)

`demonstrate_motion(motion_name, duration)` wraps, in one try-block, the
creation of a single-motion environment (n_substeps=20) and
`play_trajectory(n_episodes=1, n_steps_per_episode=duration*30, render=True)`;
it returns True on success and False from the except-branch.  `main` iterates
over the names returned by `available_basic_motions()` and counts the True
results in `successful_demos`, calling each demo with duration=12. -/

def demonstrateMotionBody (api : ExtApi) (motion : String) (duration : Nat) :
    Except String Unit := do
  api.makeEnv [motion] (some 20)
  api.playTrajectory [motion] 1 (duration * 30)

def demonstrate_motion (api : ExtApi) (motion : String) (duration : Nat) : Bool :=
  match demonstrateMotionBody api motion duration with
  | Except.ok _ => true
  | Except.error _ => false

def lesson13_motions : List String :=
  ["walk", "run", "squat", "balance"]

def lesson13_demoLoop (api : ExtApi) : List String → Nat
  | [] => 0
  | m :: rest => (if demonstrate_motion api m 12 then 1 else 0) + lesson13_demoLoop api rest

def lesson13_successful_demos (api : ExtApi) : Nat :=
  lesson13_demoLoop api lesson13_motions

/-! Section: static per-file facts

One record per Python file of the repository (48 files), recording:
whether a top-level `def main` exists; whether an `if __name__ == "__main__"`
guard exists; which functions the guard body invokes; whether `main()` is
called anywhere outside the guard; whether the file mentions `sys.argv` or
`argparse`; and whether the file contains an `input()` call that reads a
y/N confirmation (accepted answers 'y'/'yes', anything else meaning no).
These facts are read off the sources directly. -/

structure ScriptFile : Type where
  path : String
  definesMain : Bool
  hasMainGuard : Bool
  guardCalls : List String
  mainCalledOutsideGuard : Bool
  usesArgv : Bool
  promptsYesNo : Bool
deriving DecidableEq, Repr

/-- A script of the common shape: `main()` defined, guard calls exactly
`main()`, no argv use; the flag records whether it prompts for y/N. -/
def mkScript (path : String) (yn : Bool) : ScriptFile :=
  ⟨path, true, true, ["main"], false, false, yn⟩

def repoFiles : List ScriptFile :=
  [⟨"examples/g1_tutorials/archive/debug_test.py",
    false, true, ["test_basic_rl_environment"], false, false, false⟩,
   mkScript "examples/g1_tutorials/archive/g1_01_basic_datasets.py" false,
   mkScript "examples/g1_tutorials/archive/g1_01_record_datasets.py" false,
   mkScript "examples/g1_tutorials/archive/g1_02_lafan1_datasets.py" false,
   mkScript "examples/g1_tutorials/archive/g1_03_interactive_control.py" false,
   mkScript "examples/g1_tutorials/archive/g1_04_numerical_analysis.py" false,
   mkScript "examples/g1_tutorials/archive/g1_04_simple_analysis.py" false,
   mkScript "examples/g1_tutorials/archive/g1_04_trajectory_generation.py" false,
   mkScript "examples/g1_tutorials/archive/g1_05_visual_analysis.py" false,
   mkScript "examples/g1_tutorials/archive/g1_complete_dataset_recorder.py" false,
   mkScript "examples/g1_tutorials/archive/g1_comprehensive_dataset_explorer.py" true,
   mkScript "examples/g1_tutorials/archive/g1_dance_recorder.py" false,
   mkScript "examples/g1_tutorials/archive/g1_dance_recorder_fixed.py" false,
   mkScript "examples/g1_tutorials/archive/g1_dance_video_recorder.py" false,
   mkScript "examples/g1_tutorials/archive/g1_dataset_explorer.py" false,
   mkScript "examples/g1_tutorials/archive/g1_dataset_guide.py" false,
   mkScript "examples/g1_tutorials/archive/g1_extended_dataset_recorder.py" false,
   mkScript "examples/g1_tutorials/archive/g1_lafan1_demo.py" true,
   mkScript "examples/g1_tutorials/archive/g1_quick_test.py" false,
   mkScript "examples/g1_tutorials/archive/g1_simple_recorder.py" false,
   mkScript "examples/g1_tutorials/archive/g1_simple_walk_test.py" false,
   mkScript "examples/g1_tutorials/archive/g1_slow_motion_viewer.py" true,
   ⟨"examples/g1_tutorials/archive/test_dance_recording.py",
    false, true, ["test_single_dance"], false, false, false⟩,
   mkScript "examples/g1_tutorials/archive/test_dataset_availability.py" false,
   mkScript "examples/g1_tutorials/archive/test_mujoco_viewer.py" false,
   mkScript "examples/g1_tutorials/archive/tutorial_01_your_first_robot.py" false,
   mkScript "examples/g1_tutorials/archive/tutorial_02_interactive_control.py" false,
   mkScript "examples/g1_tutorials/archive/tutorial_02_interactive_control_fixed.py" false,
   mkScript "examples/g1_tutorials/archive/tutorial_02_interactive_simple.py" false,
   mkScript "examples/g1_tutorials/archive/tutorial_03_data_analysis.py" false,
   mkScript "examples/g1_tutorials/archive/tutorial_04_reinforcement_learning.py" false,
   mkScript "examples/g1_tutorials/background_color_guide.py" false,
   mkScript "examples/g1_tutorials/lesson_1_10_complete_summary.py" false,
   mkScript "examples/g1_tutorials/lesson_1_1_quick_test.py" false,
   mkScript "examples/g1_tutorials/lesson_1_2_simple_walk_test.py" false,
   mkScript "examples/g1_tutorials/lesson_1_3_basic_datasets.py" false,
   mkScript "examples/g1_tutorials/lesson_1_4_lafan1_datasets.py" false,
   mkScript "examples/g1_tutorials/lesson_1_5_interactive_control.py" false,
   mkScript "examples/g1_tutorials/lesson_1_6_motion_analysis.py" false,
   mkScript "examples/g1_tutorials/lesson_1_7_dataset_explorer.py" false,
   mkScript "examples/g1_tutorials/lesson_1_8_test_utilities.py" false,
   mkScript "examples/g1_tutorials/lesson_1_9_slow_motion_viewer.py" false,
   mkScript "examples/g1_tutorials/quick_background_demo.py" false,
   mkScript "examples/g1_tutorials/tools/generate_gamma_presentations.py" false,
   mkScript "simple_tutorial.py" false,
   mkScript "test_g1_locomujoco.py" false,
   ⟨"test_locomujoco_examples.py",
    false, true, ["test_basic_locomujoco", "test_alternative_simple_environment"],
    false, false, false⟩,
   mkScript "working_examples_test.py" false]

/-! Section: theorems for the claims -/

/-- C3: `get_action_size(env)` returns `env.action_size` when that attribute
exists, otherwise `env.action_space.shape[0]` when both `action_space` and
its `shape` attribute exist, and otherwise the hard-coded fallback 23; in
particular an object exposing neither attribute yields exactly 23. -/
theorem get_action_size_spec (env : PyEnv) :
    (∀ n, env.action_size = some n → get_action_size env = some n) ∧
    (env.action_size = none → ∀ d rest, env.action_space_shape = some (d :: rest) →
      get_action_size env = some d) ∧
    (env.action_size = none → env.action_space_shape = none →
      get_action_size env = some 23) := by
  refine ⟨?_, ?_, ?_⟩
  · intro n h
    simp [get_action_size, h]
  · intro h d rest h2
    simp [get_action_size, h, h2]
  · intro h h2
    simp [get_action_size, h, h2]

/-- Witness for C3: the environment exposing neither attribute gets action
size 23. -/
theorem get_action_size_spec_witness :
    get_action_size ⟨none, none⟩ = some 23 :=
  (get_action_size_spec ⟨none, none⟩).2.2 rfl rfl

/-- C4 counterexample: the claim says a step result of any length other than
5 or 4 takes the first three elements with `truncated = False` and
`info = {}`.  At the concrete length-3 result
`[obj "state", int 0, bool false]`, lesson_1_1's unpacking (one of the
claim's cited sites) instead attempts a 4-way destructuring and raises
(modelled `none`), while lesson_1_8's behaves as the claim says. -/
theorem step_unpack_counterexample :
    unpackStep_lesson11 [PyVal.obj "state", PyVal.int 0, PyVal.bool false] = none ∧
    unpackStep_lesson18 [PyVal.obj "state", PyVal.int 0, PyVal.bool false] =
      some ⟨PyVal.obj "state", PyVal.int 0, PyVal.bool false, PyVal.bool false,
            PyVal.emptyDict⟩ ∧
    none ≠ some (⟨PyVal.obj "state", PyVal.int 0, PyVal.bool false, PyVal.bool false,
            PyVal.emptyDict⟩ : Unpacked) := by
  refine ⟨rfl, rfl, by decide⟩

/-- C4 amended: lesson_1_8's `test_environment_stepping` unpacks step results
exactly as the claim states (5 as the five names; 4 with `truncated = False`;
any other length of at least 3 as the first three elements with
`truncated = False`, `info = {}`; fewer than 3 elements raise), while
lesson_1_1's `test_basic_movement` unpacks any result whose length is not 5
as a 4-tuple `(state, reward, terminated, info)` with `truncated = False`,
raising on every other arity. -/
theorem step_unpack_amended (s r t tr i : PyVal) (rest : List PyVal)
    (h1 : rest.length ≠ 1) (h2 : rest.length ≠ 2) :
    unpackStep_lesson18 [s, r, t, tr, i] = some ⟨s, r, t, tr, i⟩ ∧
    unpackStep_lesson18 [s, r, t, i] = some ⟨s, r, t, PyVal.bool false, i⟩ ∧
    unpackStep_lesson18 (s :: r :: t :: rest) =
      some ⟨s, r, t, PyVal.bool false, PyVal.emptyDict⟩ ∧
    unpackStep_lesson18 [s, r] = none ∧
    unpackStep_lesson11 [s, r, t, tr, i] = some ⟨s, r, t, tr, i⟩ ∧
    unpackStep_lesson11 [s, r, t, i] = some ⟨s, r, t, PyVal.bool false, i⟩ ∧
    unpackStep_lesson11 (s :: r :: t :: rest) = none := by
  refine ⟨rfl, rfl, ?_, rfl, rfl, rfl, ?_⟩
  · cases rest with
    | nil => rfl
    | cons a as =>
      cases as with
      | nil => exact absurd rfl h1
      | cons b bs =>
        cases bs with
        | nil => exact absurd rfl h2
        | cons c cs => rfl
  · cases rest with
    | nil => rfl
    | cons a as =>
      cases as with
      | nil => exact absurd rfl h1
      | cons b bs =>
        cases bs with
        | nil => exact absurd rfl h2
        | cons c cs => rfl

/-- Witness for C4 (amended): a length-3 step result through lesson_1_8's
unpacking yields the first three elements, `truncated = False` and an empty
info dict. -/
theorem step_unpack_amended_witness :
    unpackStep_lesson18 [PyVal.obj "s", PyVal.int 1, PyVal.bool true] =
      some ⟨PyVal.obj "s", PyVal.int 1, PyVal.bool true, PyVal.bool false,
            PyVal.emptyDict⟩ :=
  (step_unpack_amended (PyVal.obj "s") (PyVal.int 1) (PyVal.bool true)
    (PyVal.bool false) PyVal.emptyDict [] (by decide) (by decide)).2.2.1

/-- C5 counterexample: the claim says the full exception message is never
printed in these branches.  For the non-404 exception text "boom" (4
characters), `str(e)[:50]` is the whole message, so the line printed by
g1_extended_dataset_recorder contains the full message. -/
theorem error_truncation_counterexample :
    pyIn "404" "boom" = false ∧
    pyIn "Entry Not Found" "boom" = false ∧
    extendedRecorderErrorLine "boom" = " ❌ Error: boom..." ∧
    pyIn "boom" (extendedRecorderErrorLine "boom") = true := by
  refine ⟨by decide, by decide, by decide, by decide⟩

/-- C5 amended: in the cited branches the printed error text is exactly the
Python slice `str(e)[:50]` (g1_extended_dataset_recorder, non-404 branch)
resp. `str(e)[:100]` (g1_dance_recorder), i.e. the first
`min(50, len)` resp. `min(100, len)` characters; whenever the message is
strictly longer than the slice bound, the full message is not printed. -/
theorem error_truncation_amended (msg : String)
    (h404 : pyIn "404" msg = false) (hnf : pyIn "Entry Not Found" msg = false) :
    extendedRecorderErrorLine msg = " ❌ Error: " ++ pySlice msg 50 ++ "..." ∧
    danceRecorderErrorLine msg = "   ❌ Recording failed: " ++ pySlice msg 100 ++ "..." ∧
    (pySlice msg 50).data = msg.data.take 50 ∧
    (50 < msg.data.length → pySlice msg 50 ≠ msg) ∧
    (100 < msg.data.length → pySlice msg 100 ≠ msg) := by
  refine ⟨?_, rfl, rfl, ?_, ?_⟩
  · simp [extendedRecorderErrorLine, h404, hnf]
  · intro hlen heq
    have hd : msg.data.take 50 = msg.data := congrArg String.data heq
    have hl : (msg.data.take 50).length = msg.data.length := by rw [hd]
    rw [List.length_take] at hl
    omega
  · intro hlen heq
    have hd : msg.data.take 100 = msg.data := congrArg String.data heq
    have hl : (msg.data.take 100).length = msg.data.length := by rw [hd]
    rw [List.length_take] at hl
    omega

/-- Witness for C5 (amended): a 101-character non-404 message is genuinely
truncated by the 100-character slice. -/
theorem error_truncation_amended_witness :
    pySlice (String.mk (List.replicate 101 (Char.ofNat 120))) 100 ≠
      String.mk (List.replicate 101 (Char.ofNat 120)) :=
  (error_truncation_amended (String.mk (List.replicate 101 (Char.ofNat 120)))
    (by decide) (by decide)).2.2.2.2 (by decide)

/-- C6: `main` of g1_01_basic_datasets never propagates an exception: for
every oracle behaviour of the external library, the result is an `ok`
outcome; and whenever the multi-dataset body raises, the result is exactly
what the hard-coded `["walk"]` fallback produces (its success, or its
caught-and-reported failure). -/
theorem g1_01_main_never_raises (api : ExtApi) :
    (basicDatasetsMain api).isOk = true ∧
    (∀ e, basicDatasetsBody api = Except.error e →
      basicDatasetsMain api =
        match basicDatasetsFallback api with
        | Except.ok _ => Except.ok (BasicOutcome.fallbackSuccess e)
        | Except.error e2 => Except.ok (BasicOutcome.fallbackFailed e e2)) := by
  constructor
  · cases hb : basicDatasetsBody api with
    | ok u => simp [basicDatasetsMain, hb, Except.isOk, Except.toBool]
    | error e =>
      cases hf : basicDatasetsFallback api with
      | ok u => simp [basicDatasetsMain, hb, hf, Except.isOk, Except.toBool]
      | error e2 => simp [basicDatasetsMain, hb, hf, Except.isOk, Except.toBool]
  · intro e he
    simp [basicDatasetsMain, he]

/-- Witness for C6: with an oracle on which every `make` call raises "boom",
`main` returns the caught double-failure outcome rather than raising. -/
theorem g1_01_main_never_raises_witness :
    basicDatasetsMain
      ⟨fun _ _ => Except.error "boom", Except.ok (), fun _ _ _ => Except.error "boom"⟩ =
      Except.ok (BasicOutcome.fallbackFailed "boom" "boom") := by
  have h := (g1_01_main_never_raises
    ⟨fun _ _ => Except.error "boom", Except.ok (), fun _ _ _ => Except.error "boom"⟩).2
    "boom" rfl
  simpa using h

/-- C7: in lesson_1_3 a failing motion never aborts the loop: the motion list
is exactly ["walk", "run", "squat", "balance"], `demonstrate_motion` is total
over every oracle (True exactly when its body succeeded, False exactly when
it raised), and the reported `successful_demos` equals the number of motions
whose demonstration returned True. -/
theorem lesson13_demo_loop_spec (api : ExtApi) :
    lesson13_motions = ["walk", "run", "squat", "balance"] ∧
    lesson13_successful_demos api =
      lesson13_motions.countP (fun m => demonstrate_motion api m 12) ∧
    (∀ m d, demonstrate_motion api m d = true ↔
      demonstrateMotionBody api m d = Except.ok ()) ∧
    (∀ m d, demonstrate_motion api m d = false ↔
      ∃ e, demonstrateMotionBody api m d = Except.error e) := by
  refine ⟨rfl, ?_, ?_, ?_⟩
  · have hgen : ∀ l : List String,
        lesson13_demoLoop api l = l.countP (fun m => demonstrate_motion api m 12) := by
      intro l
      induction l with
      | nil => rfl
      | cons m rest ih =>
        rw [lesson13_demoLoop, ih, List.countP_cons]
        cases hm : demonstrate_motion api m 12
        · simp [hm]
        · simp [hm]
          omega
    exact hgen lesson13_motions
  · intro m d
    unfold demonstrate_motion
    cases hb : demonstrateMotionBody api m d with
    | ok u => simp [hb]
    | error e => simp [hb]
  · intro m d
    unfold demonstrate_motion
    cases hb : demonstrateMotionBody api m d with
    | ok u => simp [hb]
    | error e => simp [hb]

/-- Witness for C7: with an oracle on which only the "walk" environment can
be created, all four motions are attempted and exactly one demo counts as
successful. -/
theorem lesson13_demo_loop_spec_witness :
    lesson13_successful_demos
      ⟨fun names _ => if names = ["walk"] then Except.ok () else Except.error "404",
       Except.ok (), fun _ _ _ => Except.ok ()⟩ = 1 := by
  have h := (lesson13_demo_loop_spec
    ⟨fun names _ => if names = ["walk"] then Except.ok () else Except.error "404",
     Except.ok (), fun _ _ _ => Except.ok ()⟩).2.1
  rw [h]
  rfl

/-- A successful `List.lookup` returns one of the stored values. -/
theorem lookup_mem_values [BEq α] (l : List (α × β)) (k : α) (v : β)
    (h : l.lookup k = some v) : v ∈ l.map Prod.snd := by
  induction l with
  | nil => simp [List.lookup] at h
  | cons p tl ih =>
    obtain ⟨k1, v1⟩ := p
    simp only [List.lookup] at h
    by_cases hk : (k == k1) = true
    · rw [hk] at h
      cases h
      simp
    · rw [Bool.not_eq_true] at hk
      rw [hk] at h
      simpa using Or.inr (ih h)

/-- A token whose parse is known to be `(w, f, k)` with value at most 1
denotes a unit-interval rational. -/
theorem unitToken_of_parse (t : String) (w f k : Nat)
    (hp : parseDecimal t = some (w, f, k)) (hb : decimalVal (w, f, k) ≤ 1) :
    ∃ q : ℚ, parseDecimalQ t = some q ∧ 0 ≤ q ∧ q ≤ 1 := by
  refine ⟨decimalVal (w, f, k), by simp [parseDecimalQ, hp], ?_, hb⟩
  unfold decimalVal
  positivity

/-- Every value `set_background_color` can write. -/
theorem set_background_color_mem (color_name : String) :
    set_background_color color_name ∈
      ["0 0 0", "0.1 0.1 0.2", "0.2 0.2 0.2", "1 1 1", "0.2 0.3 0.4"] := by
  unfold set_background_color
  cases h : backgroundColors.lookup color_name with
  | none => simp
  | some c =>
    have hm := lookup_mem_values _ _ _ h
    simp only [backgroundColors, List.map_cons, List.map_nil] at hm
    simpa using hm

/-- Each of the five writable values splits into three unit-interval
decimal tokens. -/
theorem rgb_value_tokens_ok (s : String)
    (hs : s ∈ ["0 0 0", "0.1 0.1 0.2", "0.2 0.2 0.2", "1 1 1", "0.2 0.3 0.4"]) :
    (splitTokens s).length = 3 ∧
      ∀ t ∈ splitTokens s, ∃ q : ℚ, parseDecimalQ t = some q ∧ 0 ≤ q ∧ q ≤ 1 := by
  have h0 : ∃ q : ℚ, parseDecimalQ "0" = some q ∧ 0 ≤ q ∧ q ≤ 1 :=
    unitToken_of_parse "0" 0 0 0 (by decide) (by norm_num [decimalVal])
  have h1 : ∃ q : ℚ, parseDecimalQ "1" = some q ∧ 0 ≤ q ∧ q ≤ 1 :=
    unitToken_of_parse "1" 1 0 0 (by decide) (by norm_num [decimalVal])
  have hp1 : ∃ q : ℚ, parseDecimalQ "0.1" = some q ∧ 0 ≤ q ∧ q ≤ 1 :=
    unitToken_of_parse "0.1" 0 1 1 (by decide) (by norm_num [decimalVal])
  have hp2 : ∃ q : ℚ, parseDecimalQ "0.2" = some q ∧ 0 ≤ q ∧ q ≤ 1 :=
    unitToken_of_parse "0.2" 0 2 1 (by decide) (by norm_num [decimalVal])
  have hp3 : ∃ q : ℚ, parseDecimalQ "0.3" = some q ∧ 0 ≤ q ∧ q ≤ 1 :=
    unitToken_of_parse "0.3" 0 3 1 (by decide) (by norm_num [decimalVal])
  have hp4 : ∃ q : ℚ, parseDecimalQ "0.4" = some q ∧ 0 ≤ q ∧ q ≤ 1 :=
    unitToken_of_parse "0.4" 0 4 1 (by decide) (by norm_num [decimalVal])
  simp only [List.mem_cons, List.not_mem_nil, or_false] at hs
  rcases hs with rfl | rfl | rfl | rfl | rfl
  · refine ⟨by decide, ?_⟩
    have hsp : splitTokens "0 0 0" = ["0", "0", "0"] := by decide
    rw [hsp]
    intro t ht
    simp only [List.mem_cons, List.not_mem_nil, or_false] at ht
    rcases ht with rfl | rfl | rfl
    exacts [h0, h0, h0]
  · refine ⟨by decide, ?_⟩
    have hsp : splitTokens "0.1 0.1 0.2" = ["0.1", "0.1", "0.2"] := by decide
    rw [hsp]
    intro t ht
    simp only [List.mem_cons, List.not_mem_nil, or_false] at ht
    rcases ht with rfl | rfl | rfl
    exacts [hp1, hp1, hp2]
  · refine ⟨by decide, ?_⟩
    have hsp : splitTokens "0.2 0.2 0.2" = ["0.2", "0.2", "0.2"] := by decide
    rw [hsp]
    intro t ht
    simp only [List.mem_cons, List.not_mem_nil, or_false] at ht
    rcases ht with rfl | rfl | rfl
    exacts [hp2, hp2, hp2]
  · refine ⟨by decide, ?_⟩
    have hsp : splitTokens "1 1 1" = ["1", "1", "1"] := by decide
    rw [hsp]
    intro t ht
    simp only [List.mem_cons, List.not_mem_nil, or_false] at ht
    rcases ht with rfl | rfl | rfl
    exacts [h1, h1, h1]
  · refine ⟨by decide, ?_⟩
    have hsp : splitTokens "0.2 0.3 0.4" = ["0.2", "0.3", "0.4"] := by decide
    rw [hsp]
    intro t ht
    simp only [List.mem_cons, List.not_mem_nil, or_false] at ht
    rcases ht with rfl | rfl | rfl
    exacts [hp2, hp3, hp4]

/-- C8: for every color name, `set_background_color` writes an "R G B"
string of three components, each a decimal in the range 0 to 1; the five
known names map to their table entries, and every unknown name maps to the
black string "0 0 0". -/
theorem set_background_color_range (color_name : String) :
    (splitTokens (set_background_color color_name)).length = 3 ∧
    (∀ t ∈ splitTokens (set_background_color color_name),
      ∃ q : ℚ, parseDecimalQ t = some q ∧ 0 ≤ q ∧ q ≤ 1) ∧
    set_background_color "black" = "0 0 0" ∧
    set_background_color "dark_blue" = "0.1 0.1 0.2" ∧
    set_background_color "dark_gray" = "0.2 0.2 0.2" ∧
    set_background_color "white" = "1 1 1" ∧
    set_background_color "default" = "0.2 0.3 0.4" ∧
    (backgroundColors.lookup color_name = none →
      set_background_color color_name = "0 0 0") := by
  have hmem := set_background_color_mem color_name
  have hts := rgb_value_tokens_ok _ hmem
  refine ⟨hts.1, hts.2, rfl, rfl, rfl, rfl, rfl, ?_⟩
  intro h
  unfold set_background_color
  rw [h]

/-- Witness for C8: the unknown name "purple" writes the black fallback. -/
theorem set_background_color_range_witness :
    set_background_color "purple" = "0 0 0" :=
  (set_background_color_range "purple").2.2.2.2.2.2.2 (by decide)

/-- Reading `current_action[i]` (via `getD`, default 0) stays in the bounds
satisfied by every stored entry. -/
theorem getD_bounds {xs : List ℚ} (hxs : ∀ x ∈ xs, -1 ≤ x ∧ x ≤ 1) (i : Nat) :
    -1 ≤ xs.getD i 0 ∧ xs.getD i 0 ≤ 1 := by
  rw [List.getD_eq_getElem?_getD]
  cases h : xs[i]? with
  | none => norm_num
  | some x =>
    have hmem : x ∈ xs := by
      obtain ⟨hlt, heq⟩ := List.getElem?_eq_some.mp h
      exact heq ▸ List.getElem_mem hlt
    have hx := hxs x hmem
    simpa using hx

/-- A clamped increment keeps every entry of the action vector in [-1, 1]. -/
theorem bumpUp_bounds {xs : List ℚ} {s : ℚ} (hxs : ∀ x ∈ xs, -1 ≤ x ∧ x ≤ 1)
    (hs : 0 ≤ s) (i : Nat) : ∀ x ∈ bumpUp xs i s, -1 ≤ x ∧ x ≤ 1 := by
  intro x hx
  rcases List.mem_or_eq_of_mem_set hx with hmem | rfl
  · exact hxs x hmem
  · have hget := getD_bounds hxs i
    constructor
    · have : (-1 : ℚ) ≤ xs.getD i 0 + s := by linarith [hget.1]
      exact le_min (by norm_num) this
    · exact min_le_left _ _

/-- A clamped decrement keeps every entry of the action vector in [-1, 1]. -/
theorem bumpDown_bounds {xs : List ℚ} {s : ℚ} (hxs : ∀ x ∈ xs, -1 ≤ x ∧ x ≤ 1)
    (hs : 0 ≤ s) (i : Nat) : ∀ x ∈ bumpDown xs i s, -1 ≤ x ∧ x ≤ 1 := by
  intro x hx
  rcases List.mem_or_eq_of_mem_set hx with hmem | rfl
  · exact hxs x hmem
  · have hget := getD_bounds hxs i
    constructor
    · exact le_max_left _ _
    · have : xs.getD i 0 - s ≤ 1 := by linarith [hget.2]
      exact max_le (by norm_num) this

/-- The controller invariant: every action entry lies in [-1, 1] and the
control speed lies in [0.01, 0.5]. -/
def ControllerInv (c : InteractiveController) : Prop :=
  (∀ x ∈ c.current_action, -1 ≤ x ∧ x ≤ 1) ∧
    0.01 ≤ c.control_speed ∧ c.control_speed ≤ 0.5

/-- One `update_action` call preserves the controller invariant. -/
theorem update_action_preserves (c : InteractiveController) (key : Char)
    (h : ControllerInv c) : ControllerInv (update_action c key) := by
  obtain ⟨ha, hs1, hs2⟩ := h
  have hs0 : (0 : ℚ) ≤ c.control_speed := by linarith
  have hup : ∀ i, ControllerInv
      { c with current_action := bumpUp c.current_action i c.control_speed } :=
    fun i => ⟨bumpUp_bounds ha hs0 i, hs1, hs2⟩
  have hdn : ∀ i, ControllerInv
      { c with current_action := bumpDown c.current_action i c.control_speed } :=
    fun i => ⟨bumpDown_bounds ha hs0 i, hs1, hs2⟩
  have hid : ControllerInv c := ⟨ha, hs1, hs2⟩
  have hplus : ControllerInv
      { c with control_speed := min 0.5 (c.control_speed + 0.02) } := by
    refine ⟨ha, le_min (by norm_num) (by linarith), min_le_left _ _⟩
  have hminus : ControllerInv
      { c with control_speed := max 0.01 (c.control_speed - 0.02) } := by
    refine ⟨ha, le_max_left _ _, max_le (by norm_num) (by linarith)⟩
  have hzero : ControllerInv
      { c with current_action := List.replicate c.current_action.length 0 } := by
    refine ⟨?_, hs1, hs2⟩
    intro x hx
    have hx0 := List.eq_of_mem_replicate hx
    subst hx0
    norm_num
  rw [update_action]
  by_cases k0 : key = 'w'
  · rw [if_pos k0]
    exact hup 0
  · rw [if_neg k0]
    by_cases k1 : key = 's'
    · rw [if_pos k1]
      exact hdn 0
    · rw [if_neg k1]
      by_cases k2 : key = 'a'
      · rw [if_pos k2]
        exact hup 1
      · rw [if_neg k2]
        by_cases k3 : key = 'd'
        · rw [if_pos k3]
          exact hdn 1
        · rw [if_neg k3]
          by_cases k4 : key = 'q'
          · rw [if_pos k4]
            exact hup 2
          · rw [if_neg k4]
            by_cases k5 : key = 'e'
            · rw [if_pos k5]
              exact hdn 2
            · rw [if_neg k5]
              by_cases k6 : key = 'r'
              · rw [if_pos k6]
                by_cases hl6 : 3 < c.current_action.length
                · rw [if_pos hl6]
                  exact hup 3
                · rw [if_neg hl6]
                  exact hid
              · rw [if_neg k6]
                by_cases k7 : key = 'f'
                · rw [if_pos k7]
                  by_cases hl7 : 3 < c.current_action.length
                  · rw [if_pos hl7]
                    exact hdn 3
                  · rw [if_neg hl7]
                    exact hid
                · rw [if_neg k7]
                  by_cases k8 : key = 't'
                  · rw [if_pos k8]
                    by_cases hl8 : 4 < c.current_action.length
                    · rw [if_pos hl8]
                      exact hup 4
                    · rw [if_neg hl8]
                      exact hid
                  · rw [if_neg k8]
                    by_cases k9 : key = 'g'
                    · rw [if_pos k9]
                      by_cases hl9 : 4 < c.current_action.length
                      · rw [if_pos hl9]
                        exact hdn 4
                      · rw [if_neg hl9]
                        exact hid
                    · rw [if_neg k9]
                      by_cases k10 : key = '+'
                      · rw [if_pos k10]
                        exact hplus
                      · rw [if_neg k10]
                        by_cases k11 : key = '-'
                        · rw [if_pos k11]
                          exact hminus
                        · rw [if_neg k11]
                          by_cases k12 : key = '0'
                          · rw [if_pos k12]
                            exact hzero
                          · rw [if_neg k12]
                            exact hid

/-- Iterating `update_action` from any state satisfying the invariant keeps
it. -/
theorem foldl_update_action_inv (keys : List Char) (c : InteractiveController)
    (h : ControllerInv c) : ControllerInv (keys.foldl update_action c) := by
  induction keys generalizing c with
  | nil => exact h
  | cons k ks ih => exact ih _ (update_action_preserves _ _ h)

/-- C9: starting from the all-zeros action vector and speed 0.1 set in
`__init__`, every sequence of `update_action` key presses keeps every entry
of `current_action` in [-1, 1] and `control_speed` in [0.01, 0.5]. -/
theorem controller_invariant (action_size : Nat) (keys : List Char) :
    ControllerInv (keys.foldl update_action (mkController action_size)) := by
  apply foldl_update_action_inv
  refine ⟨?_, ?_, ?_⟩
  · intro x hx
    have := List.eq_of_mem_replicate hx
    subst this
    norm_num
  · norm_num [mkController]
  · norm_num [mkController]

/-- C10: `set_speed` with a name outside the five-key multiplier table
leaves the viewer unchanged, so `get_current_delay` is identical before and
after the call. -/
theorem set_speed_atomic (v : SlowMotionViewer) (speed_name : String)
    (h : speed_name ∉ ["ultra_slow", "very_slow", "slow", "normal", "fast"]) :
    set_speed v speed_name = v ∧
    get_current_delay (set_speed v speed_name) = get_current_delay v := by
  simp only [List.mem_cons, List.not_mem_nil, or_false, not_or] at h
  obtain ⟨h1, h2, h3, h4, h5⟩ := h
  have b1 : (speed_name == "ultra_slow") = false := by simp [h1]
  have b2 : (speed_name == "very_slow") = false := by simp [h2]
  have b3 : (speed_name == "slow") = false := by simp [h3]
  have b4 : (speed_name == "normal") = false := by simp [h4]
  have b5 : (speed_name == "fast") = false := by simp [h5]
  have hnone : speed_multipliers.lookup speed_name = none := by
    simp [speed_multipliers, List.lookup, b1, b2, b3, b4, b5]
  have hset : set_speed v speed_name = v := by
    simp [set_speed, hnone]
  exact ⟨hset, by rw [hset]⟩

/-- Witness for C10: the unknown speed name "warp" leaves the freshly
initialised viewer and its frame delay unchanged. -/
theorem set_speed_atomic_witness :
    set_speed mkSlowMotionViewer "warp" = mkSlowMotionViewer ∧
    get_current_delay (set_speed mkSlowMotionViewer "warp") =
      get_current_delay mkSlowMotionViewer :=
  set_speed_atomic mkSlowMotionViewer "warp" (by decide)

/-- C1 counterexample: not every script defines `main()`:
test_locomujoco_examples.py (also debug_test.py and test_dance_recording.py)
has a `__main__` guard with inline code or test functions but no `main`. -/
theorem standalone_entry_counterexample :
    ¬ (∀ f ∈ repoFiles, f.definesMain = true ∧ f.usesArgv = false) := by
  decide

/-- C1 amended: every file has a `__main__` guard, never consults `sys.argv`
or `argparse`, and never calls `main()` outside the guard; every file except
debug_test.py, test_dance_recording.py and test_locomujoco_examples.py
defines `main()` and its guard invokes exactly `main()`; those three invoke
their test functions (or inline code) under the guard instead. -/
theorem standalone_entry_amended :
    ∀ f ∈ repoFiles,
      f.usesArgv = false ∧
      f.hasMainGuard = true ∧
      f.mainCalledOutsideGuard = false ∧
      (f.definesMain = true → f.guardCalls = ["main"]) ∧
      (f.definesMain = false →
        f.path ∈ ["examples/g1_tutorials/archive/debug_test.py",
                  "examples/g1_tutorials/archive/test_dance_recording.py",
                  "test_locomujoco_examples.py"]) := by
  decide

/-- Witness for C1 (amended): simple_tutorial.py has no argv use and its
guard calls exactly `main()`. -/
theorem standalone_entry_amended_witness :
    (mkScript "simple_tutorial.py" false).usesArgv = false ∧
    (mkScript "simple_tutorial.py" false).guardCalls = ["main"] := by
  have h := standalone_entry_amended (mkScript "simple_tutorial.py" false) (by decide)
  exact ⟨h.1, h.2.2.2.1 rfl⟩

/-- C2 counterexample: g1_comprehensive_dataset_explorer.py is not the only
script prompting for a y/N confirmation -- g1_lafan1_demo.py (and
g1_slow_motion_viewer.py) also read a y/N answer from standard input. -/
theorem yn_prompt_counterexample :
    ¬ (∀ f ∈ repoFiles, f.promptsYesNo = true →
        f.path = "examples/g1_tutorials/archive/g1_comprehensive_dataset_explorer.py") := by
  decide

/-- C2 amended: exactly three scripts prompt interactively for a y/N
confirmation: g1_comprehensive_dataset_explorer.py, g1_lafan1_demo.py and
g1_slow_motion_viewer.py (all under examples/g1_tutorials/archive/); no
other script reads a y/N answer from standard input. -/
theorem yn_prompt_amended :
    (repoFiles.filter (fun f => f.promptsYesNo)).map (fun f => f.path) =
      ["examples/g1_tutorials/archive/g1_comprehensive_dataset_explorer.py",
       "examples/g1_tutorials/archive/g1_lafan1_demo.py",
       "examples/g1_tutorials/archive/g1_slow_motion_viewer.py"] := by
  decide

end LocoTutorials
